import Mathlib

/-!
Verification of the build-monitoring and artifact-retrieval core of
`src/apk_builder.py` (class `GitHubAPKBuilder`): the functions
`get_workflow_runs`, `get_workflow_logs`, `download_apk` and
`monitor_build` are embedded below over an abstract network environment,
and the state-machine properties of the specification are settled against
that embedding.
-/

namespace ApkBuilder

/-- A workflow-run object as decoded from JSON (src/apk_builder.py:483-486).
A field set to `none` models the key being absent from the JSON object;
for `conclusion`, `some none` models the key being present with value
`null` (as the hosted API reports it for unfinished runs). -/
structure RunObj where
  id : Option Nat
  status : Option String
  conclusion : Option (Option String)
deriving Repr, DecidableEq

/-- An artifact object as decoded from JSON (src/apk_builder.py:431-444). -/
structure ArtifactObj where
  name : Option String
  archive_download_url : Option String
deriving Repr, DecidableEq

/-- The exceptions the script can raise: `KeyError` from a dict subscript,
a raised `requests` call (connectivity failure), `zipfile.BadZipFile`
from opening a payload that is not a zip archive, and `zlib.error` from
reading a corrupt archive member. -/
inductive PyErr where
  | keyError (key : String)
  | requestError
  | badZipFile
  | zlibError
deriving Repr, DecidableEq

/-- Python `s.endswith(suffix)`: a plain suffix test on the characters. -/
def endswith (s suffix : String) : Bool := suffix.data.isSuffixOf s.data

/-- Python dict subscript `obj[key]`: raises `KeyError` when the key is
absent, otherwise yields the stored value. -/
def dictGet {α : Type} (key : String) : Option α → Except PyErr α
  | none => Except.error (PyErr.keyError key)
  | some v => Except.ok v

/-- One entry of a zip archive: its member name, and whether its
compressed data is intact (reading or extracting a non-intact entry
raises `zlib.error`). -/
structure ZipEntry where
  name : String
  intact : Bool
deriving Repr, DecidableEq

/-- A downloaded payload: either not a zip archive at all (so that
`zipfile.ZipFile(...)` raises `BadZipFile`), or a parsed archive listing
its entries in order. -/
inductive Blob where
  | notZip
  | zip (entries : List ZipEntry)
deriving Repr, DecidableEq

/-- The outcome of one `requests.get` call: the call itself can raise
(connectivity failure), or it returns a response carrying a status code
and a decoded body. -/
inductive HttpResp (α : Type) where
  | raise
  | resp (status_code : Nat) (body : α)
deriving Repr, DecidableEq

/-- `get_workflow_runs` (src/apk_builder.py:387-394): on HTTP 200 return
the decoded `workflow_runs` list (the body is modelled as that list
directly), on any other status code return the empty list; the
underlying `requests.get` can raise. -/
def get_workflow_runs (r : HttpResp (List RunObj)) : Except PyErr (List RunObj) :=
  match r with
  | HttpResp.raise => Except.error PyErr.requestError
  | HttpResp.resp code runs => if code = 200 then Except.ok runs else Except.ok []

/-- `get_workflow_logs` (src/apk_builder.py:396-419): on HTTP 200 the log
archive is saved and opened (raising `BadZipFile` when the payload is not
a zip), and every entry whose name ends in ".txt" is read and printed
(reading a corrupt such entry raises); on any other status an error
message is printed. The function returns nothing either way. -/
def get_workflow_logs (r : HttpResp Blob) : Except PyErr Unit :=
  match r with
  | HttpResp.raise => Except.error PyErr.requestError
  | HttpResp.resp code blob =>
    if code = 200 then
      match blob with
      | Blob.notZip => Except.error PyErr.badZipFile
      | Blob.zip entries =>
        if (entries.filter (fun e => endswith e.name ".txt")).all (fun e => e.intact)
        then Except.ok ()
        else Except.error PyErr.zlibError
    else Except.ok ()

/-- `ZipFile.extractall` (src/apk_builder.py:455): extracts the entries in
order directly into the destination tree; the first corrupt entry raises,
leaving the entries extracted before it in place. Returns the resulting
tree together with the raised error, if any. -/
def extractall : List ZipEntry → List String → List String × Option PyErr
  | [], tree => (tree, none)
  | e :: es, tree =>
    if e.intact then extractall es (tree ++ [e.name])
    else (tree, some PyErr.zlibError)

/-- The artifact-selection loop of `download_apk`
(src/apk_builder.py:432-437): scan the artifact list for the artifact
named "app-debug"; the subscript `artifact[...]` raises when the key is
absent. -/
def find_apk_artifact : List ArtifactObj → Except PyErr (Option ArtifactObj)
  | [] => Except.ok none
  | a :: rest =>
    match dictGet "name" a.name with
    | Except.error e => Except.error e
    | Except.ok n =>
      if n = "app-debug" then Except.ok (some a) else find_apk_artifact rest

/-- `download_apk` (src/apk_builder.py:421-470): fetch the run's artifact
list (a non-200 response prints a message and returns False), select the
artifact named "app-debug" (absence returns False), download its archive
(a non-200 response returns False), extract it directly into the current
working tree, and return whether a walk of the resulting tree finds some
file whose name ends in ".apk". The pair returned here is the updated
file tree together with the boolean result or the raised exception; on a
raise the tree reflects the entries already extracted. -/
def download_apk (artifactsResp : HttpResp (List ArtifactObj))
    (downloadResp : HttpResp Blob) (tree : List String) :
    List String × Except PyErr Bool :=
  match artifactsResp with
  | HttpResp.raise => (tree, Except.error PyErr.requestError)
  | HttpResp.resp code artifacts =>
    if code = 200 then
      match find_apk_artifact artifacts with
      | Except.error e => (tree, Except.error e)
      | Except.ok none => (tree, Except.ok false)
      | Except.ok (some art) =>
        match dictGet "archive_download_url" art.archive_download_url with
        | Except.error e => (tree, Except.error e)
        | Except.ok _url =>
          match downloadResp with
          | HttpResp.raise => (tree, Except.error PyErr.requestError)
          | HttpResp.resp dcode blob =>
            if dcode = 200 then
              match blob with
              | Blob.notZip => (tree, Except.error PyErr.badZipFile)
              | Blob.zip entries =>
                match extractall entries tree with
                | (tree2, some e) => (tree2, Except.error e)
                | (tree2, none) =>
                  (tree2, Except.ok (tree2.any (fun f => endswith f ".apk")))
            else (tree, Except.ok false)
    else (tree, Except.ok false)

/-- The environment one poll cycle of `monitor_build` runs against: the
response to the `get_workflow_runs` request, and — consulted only when
this cycle takes a terminal branch — the responses feeding `download_apk`
and `get_workflow_logs`. -/
structure CycleEnv where
  runsResp : HttpResp (List RunObj)
  artifactsResp : HttpResp (List ArtifactObj)
  downloadResp : HttpResp Blob
  logsResp : HttpResp Blob
deriving Repr, DecidableEq

/-- How one poll cycle branches. -/
inductive CycleOutcome where
  | raised (e : PyErr)
  | keepPolling
  | success (run_id : Nat)
  | failure (run_id : Nat)
deriving Repr, DecidableEq

/-- Lines 480-499 of src/apk_builder.py: poll the run list (the call can
raise), do nothing when it is empty, otherwise read `status`,
`conclusion` and `id` of the first run (each subscript can raise
`KeyError`; all three are read before any branch) and branch: a run that
is not yet completed keeps polling, a completed run selects the success
or failure branch for its id. -/
def classifyCycle (env : CycleEnv) : CycleOutcome :=
  match get_workflow_runs env.runsResp with
  | Except.error e => CycleOutcome.raised e
  | Except.ok [] => CycleOutcome.keepPolling
  | Except.ok (latest :: _) =>
    match dictGet "status" latest.status with
    | Except.error e => CycleOutcome.raised e
    | Except.ok status =>
      match dictGet "conclusion" latest.conclusion with
      | Except.error e => CycleOutcome.raised e
      | Except.ok conclusion =>
        match dictGet "id" latest.id with
        | Except.error e => CycleOutcome.raised e
        | Except.ok run_id =>
          if status = "completed" then
            if conclusion = some "success" then CycleOutcome.success run_id
            else CycleOutcome.failure run_id
          else CycleOutcome.keepPolling

/-- The observable side effects of one `monitor_build` call: how many
times the run list was polled, the run ids passed to `download_apk`, the
run ids passed to `get_workflow_logs`, and the durations slept, in
order. -/
structure Trace where
  polls : Nat
  downloads : List Nat
  logFetches : List Nat
  sleeps : List Nat
deriving Repr, DecidableEq

/-- `max_attempts = 60` (src/apk_builder.py:476). -/
def max_attempts : Nat := 60

/-- The fixed `time.sleep(10)` delay (src/apk_builder.py:501). -/
def poll_interval : Nat := 10

/-- The polling loop of `monitor_build` (src/apk_builder.py:479-505),
with `fuel = max_attempts - attempt` iterations left. Exhausted fuel is
the `while` guard failing: the code prints the timeout message and
returns False. A cycle that selects the success branch calls
`download_apk` and returns True whatever boolean that call produced; the
failure branch calls `get_workflow_logs` and returns False; a raised
exception abandons the loop (there is no try/except in the source). A
non-terminal cycle sleeps `poll_interval` and increments `attempt` by
one. -/
def monitorGo (envs : Nat → CycleEnv) :
    Nat → Nat → List String → Trace → Except PyErr Bool × Trace
  | 0, _, _, tr => (Except.ok false, tr)
  | fuel + 1, attempt, tree, tr =>
    let tr1 : Trace := { tr with polls := tr.polls + 1 }
    match classifyCycle (envs attempt) with
    | CycleOutcome.raised e => (Except.error e, tr1)
    | CycleOutcome.keepPolling =>
      monitorGo envs fuel (attempt + 1) tree
        { tr1 with sleeps := tr1.sleeps ++ [poll_interval] }
    | CycleOutcome.success run_id =>
      let tr2 : Trace := { tr1 with downloads := tr1.downloads ++ [run_id] }
      match (download_apk (envs attempt).artifactsResp
              (envs attempt).downloadResp tree).2 with
      | Except.error e => (Except.error e, tr2)
      | Except.ok _ => (Except.ok true, tr2)
    | CycleOutcome.failure run_id =>
      let tr2 : Trace := { tr1 with logFetches := tr1.logFetches ++ [run_id] }
      match get_workflow_logs (envs attempt).logsResp with
      | Except.error e => (Except.error e, tr2)
      | Except.ok _ => (Except.ok false, tr2)

/-- `monitor_build` (src/apk_builder.py:472-505) over an abstract network
environment (`envs i` serves poll cycle `i`) and the starting
working-directory file tree. Returns the boolean handed back to the
caller — or the exception that escaped — together with the side-effect
trace. -/
def monitor_build (envs : Nat → CycleEnv) (tree : List String) :
    Except PyErr Bool × Trace :=
  monitorGo envs max_attempts 0 tree ⟨0, [], [], []⟩

/-- Whether an `Except` value is a normal return (no exception). -/
def exceptOk {α : Type} : Except PyErr α → Bool
  | Except.ok _ => true
  | Except.error _ => false

/-- A run still in progress, its `conclusion` key present with value
`null` as the hosted API reports it. -/
def runIP : RunObj := ⟨some 7, some "in_progress", some none⟩

/-- A run completed with conclusion "success" and id 42. -/
def runSucc : RunObj := ⟨some 42, some "completed", some (some "success")⟩

/-- A run completed with conclusion "failure" and id 7. -/
def runFail : RunObj := ⟨some 7, some "completed", some (some "failure")⟩

/-- The artifact named "app-debug". -/
def artOK : ArtifactObj := ⟨some "app-debug", some "u"⟩

/-- A cycle whose poll reports one in-progress run. -/
def envIP : CycleEnv :=
  ⟨HttpResp.resp 200 [runIP], HttpResp.raise, HttpResp.raise, HttpResp.raise⟩

/-- A cycle whose poll reports a successful run, with a well-formed
artifact containing one ".apk" file available for download. -/
def envSucc : CycleEnv :=
  ⟨HttpResp.resp 200 [runSucc], HttpResp.resp 200 [artOK],
    HttpResp.resp 200 (Blob.zip [⟨"app-debug.apk", true⟩]), HttpResp.raise⟩

/-- A cycle whose poll reports a failed run, with a readable log archive. -/
def envFail : CycleEnv :=
  ⟨HttpResp.resp 200 [runFail], HttpResp.raise, HttpResp.raise,
    HttpResp.resp 200 (Blob.zip [⟨"0_build.txt", true⟩])⟩

/-- A cycle whose poll reports a successful run but whose artifact list
is empty, so that artifact retrieval fails benignly (returns False). -/
def envSuccNoArt : CycleEnv :=
  ⟨HttpResp.resp 200 [runSucc], HttpResp.resp 200 [], HttpResp.raise, HttpResp.raise⟩

/-- A cycle whose poll reports a successful run but whose downloaded
artifact payload is not a zip archive, so extraction raises. -/
def envSuccCorrupt : CycleEnv :=
  ⟨HttpResp.resp 200 [runSucc], HttpResp.resp 200 [artOK],
    HttpResp.resp 200 Blob.notZip, HttpResp.raise⟩

/-- A cycle whose poll gets an HTTP 500 response. -/
def env500 : CycleEnv :=
  ⟨HttpResp.resp 500 [runSucc], HttpResp.raise, HttpResp.raise, HttpResp.raise⟩

/-- A cycle whose poll reports no runs at all. -/
def envEmpty : CycleEnv :=
  ⟨HttpResp.resp 200 [], HttpResp.raise, HttpResp.raise, HttpResp.raise⟩

/-- A cycle whose poll reports a run lacking the `conclusion` key. -/
def envNoConcl : CycleEnv :=
  ⟨HttpResp.resp 200 [⟨some 1, some "in_progress", none⟩],
    HttpResp.raise, HttpResp.raise, HttpResp.raise⟩

/-- 60 in-progress cycles, then successful runs from cycle 60 on. -/
def envsLateSuccess : Nat → CycleEnv := fun j => if j < 60 then envIP else envSucc

/-- 60 in-progress cycles, then failed runs from cycle 60 on. -/
def envsLateFailure : Nat → CycleEnv := fun j => if j < 60 then envIP else envFail

/-- One in-progress cycle, then successful runs from cycle 1 on. -/
def envsSuccAt1 : Nat → CycleEnv := fun j => if j = 0 then envIP else envSucc

/-- Five in-progress cycles, then failed runs from cycle 5 on. -/
def envsFailAt5 : Nat → CycleEnv := fun j => if j < 5 then envIP else envFail

/-- A non-terminal cycle just bumps the poll count, sleeps once, and moves
to the next attempt. -/
theorem monitorGo_step_keepPolling (envs : Nat → CycleEnv) (fuel attempt : Nat)
    (tree : List String) (tr : Trace)
    (h : classifyCycle (envs attempt) = CycleOutcome.keepPolling) :
    monitorGo envs (fuel + 1) attempt tree tr =
      monitorGo envs fuel (attempt + 1) tree
        ⟨tr.polls + 1, tr.downloads, tr.logFetches, tr.sleeps ++ [poll_interval]⟩ := by
  simp only [monitorGo, h]

/-- Running through `i` consecutive non-terminal cycles keeps the monitor
in the loop, with the poll count and the sleep list growing by exactly
one entry per cycle and no downloads or log fetches recorded. -/
theorem monitorGo_skip (envs : Nat → CycleEnv) (tree : List String)
    (i : Nat) :
    ∀ (fuel attempt : Nat) (tr : Trace), i ≤ fuel →
    (∀ j, j < i → classifyCycle (envs (attempt + j)) = CycleOutcome.keepPolling) →
    monitorGo envs fuel attempt tree tr =
      monitorGo envs (fuel - i) (attempt + i) tree
        ⟨tr.polls + i, tr.downloads, tr.logFetches,
          tr.sleeps ++ List.replicate i poll_interval⟩ := by
  induction i with
  | zero => intro fuel attempt tr _ _; simp
  | succ i ih =>
    intro fuel attempt tr hle h
    obtain ⟨f, rfl⟩ : ∃ f, fuel = f + 1 := ⟨fuel - 1, by omega⟩
    rw [monitorGo_step_keepPolling envs f attempt tree tr
      (by simpa using h 0 (by omega))]
    rw [ih f (attempt + 1)
      ⟨tr.polls + 1, tr.downloads, tr.logFetches, tr.sleeps ++ [poll_interval]⟩
      (by omega)
      (fun j hj => by
        have hh := h (j + 1) (by omega)
        have : attempt + 1 + j = attempt + (j + 1) := by omega
        rw [this]; exact hh)]
    have h1 : f + 1 - (i + 1) = f - i := by omega
    have h2 : attempt + 1 + i = attempt + (i + 1) := by omega
    have h3 : tr.polls + 1 + i = tr.polls + (i + 1) := by omega
    have h4 : (tr.sleeps ++ [poll_interval]) ++ List.replicate i poll_interval =
        tr.sleeps ++ List.replicate (i + 1) poll_interval := by
      simp [List.replicate_succ]
    rw [h1, h2, h3, h4]

/-- When the first `i` cycles are non-terminal and cycle `i` selects the
success branch, `monitor_build` polls `i + 1` times, records exactly one
download for that run's id and no log fetch, and returns True — or the
exception `download_apk` raised. -/
theorem monitor_build_success_at (envs : Nat → CycleEnv) (tree : List String)
    (i n : Nat) (hi : i < max_attempts)
    (hpre : ∀ j, j < i → classifyCycle (envs j) = CycleOutcome.keepPolling)
    (hterm : classifyCycle (envs i) = CycleOutcome.success n) :
    monitor_build envs tree =
      (match (download_apk (envs i).artifactsResp (envs i).downloadResp tree).2 with
        | Except.error e =>
          (Except.error e, ⟨i + 1, [n], [], List.replicate i poll_interval⟩)
        | Except.ok _ =>
          (Except.ok true, ⟨i + 1, [n], [], List.replicate i poll_interval⟩)) := by
  unfold monitor_build
  rw [monitorGo_skip envs tree i max_attempts 0 ⟨0, [], [], []⟩ (by omega)
    (fun j hj => by simpa using hpre j hj)]
  obtain ⟨f, hf⟩ : ∃ f, max_attempts - i = f + 1 := ⟨max_attempts - i - 1, by omega⟩
  rw [hf]
  simp only [Nat.zero_add, List.nil_append, monitorGo, hterm]

/-- When the first `i` cycles are non-terminal and cycle `i` selects the
failure branch, `monitor_build` polls `i + 1` times, records exactly one
log fetch for that run's id and no download, and returns False — or the
exception `get_workflow_logs` raised. -/
theorem monitor_build_failure_at (envs : Nat → CycleEnv) (tree : List String)
    (i n : Nat) (hi : i < max_attempts)
    (hpre : ∀ j, j < i → classifyCycle (envs j) = CycleOutcome.keepPolling)
    (hterm : classifyCycle (envs i) = CycleOutcome.failure n) :
    monitor_build envs tree =
      (match get_workflow_logs (envs i).logsResp with
        | Except.error e =>
          (Except.error e, ⟨i + 1, [], [n], List.replicate i poll_interval⟩)
        | Except.ok _ =>
          (Except.ok false, ⟨i + 1, [], [n], List.replicate i poll_interval⟩)) := by
  unfold monitor_build
  rw [monitorGo_skip envs tree i max_attempts 0 ⟨0, [], [], []⟩ (by omega)
    (fun j hj => by simpa using hpre j hj)]
  obtain ⟨f, hf⟩ : ∃ f, max_attempts - i = f + 1 := ⟨max_attempts - i - 1, by omega⟩
  rw [hf]
  simp only [Nat.zero_add, List.nil_append, monitorGo, hterm]

/-- When every one of the `max_attempts` cycles is non-terminal, the loop
runs out of attempts: `monitor_build` returns False having polled exactly
`max_attempts` times, slept `max_attempts` fixed intervals, and performed
no downloads or log fetches. -/
theorem monitor_build_timeout (envs : Nat → CycleEnv) (tree : List String)
    (hpre : ∀ j, j < max_attempts → classifyCycle (envs j) = CycleOutcome.keepPolling) :
    monitor_build envs tree =
      (Except.ok false,
        ⟨max_attempts, [], [], List.replicate max_attempts poll_interval⟩) := by
  unfold monitor_build
  rw [monitorGo_skip envs tree max_attempts max_attempts 0 ⟨0, [], [], []⟩ le_rfl
    (fun j hj => by simpa using hpre j hj)]
  simp [monitorGo]

/-- Extracting an archive all of whose entries are intact appends the
entry names to the destination tree and raises nothing. -/
theorem extractall_intact (entries : List ZipEntry) :
    ∀ tree : List String, (∀ e ∈ entries, e.intact = true) →
    extractall entries tree = (tree ++ entries.map ZipEntry.name, none) := by
  induction entries with
  | nil => intro tree _; simp [extractall]
  | cons e es ih =>
    intro tree h
    have he : e.intact = true := h e (by simp)
    rw [extractall, if_pos he, ih (tree ++ [e.name]) (fun x hx => h x (by simp [hx]))]
    simp

/-- C1 counterexample: with 60 in-progress polls followed by a
completed/success run, the first run list whose head is completed has
conclusion "success" (cycle 60, id 42) and every earlier head is still
running — yet `monitor_build` returns the timeout result False with no
download ever invoked, instead of reaching the Succeeded outcome. -/
theorem monitor_late_success_times_out_cex :
    ((List.range 60).all
      (fun j => classifyCycle (envsLateSuccess j) == CycleOutcome.keepPolling)) = true ∧
    classifyCycle (envsLateSuccess 60) = CycleOutcome.success 42 ∧
    monitor_build envsLateSuccess [] =
      (Except.ok false, ⟨60, [], [], List.replicate 60 poll_interval⟩) := by
  refine ⟨by decide, by decide, ?_⟩
  exact monitor_build_timeout envsLateSuccess []
    (fun j hj => by
      have hj60 : j < 60 := hj
      simp only [envsLateSuccess, if_pos hj60]
      decide)

/-- C1 (amended): if the first run list whose head has status "completed"
has conclusion "success" with id `n`, that list is observed within the
first `max_attempts` cycles, every earlier cycle is non-terminal (empty
list, or a head still running with readable fields, no request raising),
and artifact retrieval raises no exception, then `monitor_build` returns
True, having invoked `download_apk` exactly once with that run's id and
`get_workflow_logs` never. -/
theorem monitor_success_within_bound_downloads_once (envs : Nat → CycleEnv)
    (tree : List String) (i n : Nat) (hi : i < max_attempts)
    (hpre : ∀ j, j < i → classifyCycle (envs j) = CycleOutcome.keepPolling)
    (hterm : classifyCycle (envs i) = CycleOutcome.success n)
    (hdl : exceptOk (download_apk (envs i).artifactsResp (envs i).downloadResp tree).2
      = true) :
    monitor_build envs tree =
      (Except.ok true, ⟨i + 1, [n], [], List.replicate i poll_interval⟩) := by
  rw [monitor_build_success_at envs tree i n hi hpre hterm]
  cases hres : (download_apk (envs i).artifactsResp (envs i).downloadResp tree).2 with
  | error e => rw [hres] at hdl; simp [exceptOk] at hdl
  | ok b => rfl

/-- C1 witness: one in-progress poll, then a successful run with id 42
whose artifact downloads and extracts cleanly: the monitor returns True
after 2 polls, downloading once for run 42, fetching no logs. -/
theorem monitor_success_within_bound_downloads_once_witness :
    monitor_build envsSuccAt1 [] =
      (Except.ok true, ⟨2, [42], [], [poll_interval]⟩) :=
  monitor_success_within_bound_downloads_once envsSuccAt1 [] 1 42 (by decide)
    (fun j hj => by
      have : j = 0 := by omega
      subst this
      rfl)
    rfl rfl

/-- C2 counterexample: with 60 in-progress polls followed by a
completed/failure run, the response sequence ends in a completed run with
a non-success conclusion — yet `monitor_build` times out without ever
invoking `get_workflow_logs`, instead of reaching the Failed outcome. -/
theorem monitor_late_failure_times_out_cex :
    ((List.range 60).all
      (fun j => classifyCycle (envsLateFailure j) == CycleOutcome.keepPolling)) = true ∧
    classifyCycle (envsLateFailure 60) = CycleOutcome.failure 7 ∧
    monitor_build envsLateFailure [] =
      (Except.ok false, ⟨60, [], [], List.replicate 60 poll_interval⟩) := by
  refine ⟨by decide, by decide, ?_⟩
  exact monitor_build_timeout envsLateFailure []
    (fun j hj => by
      have hj60 : j < 60 := hj
      simp only [envsLateFailure, if_pos hj60]
      decide)

/-- C2 (amended): if the cycles before cycle `i` are non-terminal and
cycle `i` reports a completed run with a conclusion other than "success"
and id `n`, with `i` within the first `max_attempts` cycles and the log
retrieval raising no exception, then `monitor_build` returns False,
having polled exactly once per cycle (`i + 1` polls in total), invoked
`get_workflow_logs` exactly once with that run's id, and never invoked
`download_apk`. -/
theorem monitor_failure_within_bound_fetches_logs_once (envs : Nat → CycleEnv)
    (tree : List String) (i n : Nat) (hi : i < max_attempts)
    (hpre : ∀ j, j < i → classifyCycle (envs j) = CycleOutcome.keepPolling)
    (hterm : classifyCycle (envs i) = CycleOutcome.failure n)
    (hlog : exceptOk (get_workflow_logs (envs i).logsResp) = true) :
    monitor_build envs tree =
      (Except.ok false, ⟨i + 1, [], [n], List.replicate i poll_interval⟩) := by
  rw [monitor_build_failure_at envs tree i n hi hpre hterm]
  cases hres : get_workflow_logs (envs i).logsResp with
  | error e => rw [hres] at hlog; simp [exceptOk] at hlog
  | ok b => rfl

/-- C2 witness: the spec's own example — "in_progress" for 5 polls, then
completed/failure with id 7 on the 6th: the monitor polls 6 times in
total, fetches logs exactly once for run 7, downloads nothing, and
returns False. -/
theorem monitor_failure_within_bound_fetches_logs_once_witness :
    monitor_build envsFailAt5 [] =
      (Except.ok false, ⟨6, [], [7], List.replicate 5 poll_interval⟩) :=
  monitor_failure_within_bound_fetches_logs_once envsFailAt5 [] 5 7 (by decide)
    (fun j hj => by
      simp only [envsFailAt5, if_pos hj]
      rfl)
    (by decide) (by decide)

/-- C3: when none of the first `max_attempts` (60) cycles is terminal,
the monitor times out: it returns the timeout report, has called
`get_workflow_runs` exactly `max_attempts` times (one poll — one attempt
increment — per cycle), slept the fixed 10-unit interval once per cycle,
and performs no further network calls (no download, no log fetch, and
nothing after the loop). -/
theorem monitor_timeout_after_max_attempts (envs : Nat → CycleEnv)
    (tree : List String)
    (hpre : ∀ j, j < max_attempts → classifyCycle (envs j) = CycleOutcome.keepPolling) :
    monitor_build envs tree =
      (Except.ok false,
        ⟨max_attempts, [], [], List.replicate max_attempts poll_interval⟩) :=
  monitor_build_timeout envs tree hpre

/-- C3 witness: a run that stays "in_progress" forever: the monitor polls
exactly 60 times, sleeps 60 intervals of 10 units, then reports the
timeout. -/
theorem monitor_timeout_after_max_attempts_witness :
    monitor_build (fun _ => envIP) [] =
      (Except.ok false, ⟨60, [], [], List.replicate 60 poll_interval⟩) :=
  monitor_timeout_after_max_attempts (fun _ => envIP) [] (fun _ _ => rfl)

/-- C7: if `get_workflow_runs` yields the empty list for each of the
first `k` poll cycles (`k` at most `max_attempts`, since no more cycles
exist), the monitor is still in the polling loop after those `k` cycles —
at attempt `k` with `k` polls, no downloads, no log fetches, and one
fixed-interval sleep per cycle — so emptiness was treated as
build-not-yet-registered, not as an error or a terminal transition. -/
theorem monitor_empty_polls_stay_polling (envs : Nat → CycleEnv)
    (tree : List String) (k : Nat) (hk : k ≤ max_attempts)
    (hempty : ∀ j, j < k → get_workflow_runs (envs j).runsResp = Except.ok []) :
    monitor_build envs tree =
      monitorGo envs (max_attempts - k) k tree
        ⟨k, [], [], List.replicate k poll_interval⟩ := by
  unfold monitor_build
  rw [monitorGo_skip envs tree k max_attempts 0 ⟨0, [], [], []⟩ hk
    (fun j hj => by
      have h := hempty j hj
      simp [classifyCycle, Nat.zero_add, h])]
  simp

/-- C7 witness: three empty polls leave the monitor polling at attempt 3
with 3 polls, no downloads, no log fetches. -/
theorem monitor_empty_polls_stay_polling_witness :
    monitor_build (fun _ => envEmpty) [] =
      monitorGo (fun _ => envEmpty) 57 3 []
        ⟨3, [], [], List.replicate 3 poll_interval⟩ :=
  monitor_empty_polls_stay_polling (fun _ => envEmpty) [] 3 (by decide)
    (fun _ _ => rfl)

/-- C4 counterexample: the four situations are not four distinguishable
results. A build that succeeds but whose artifact retrieval fails (empty
artifact list) is reported to the caller exactly like a plain success
(True — `monitor_build` ignores `download_apk`'s return value), and a
failed build is reported exactly like a timeout (False). -/
theorem monitor_outcomes_indistinct_cex :
    (monitor_build (fun _ => envSuccNoArt) []).1 = Except.ok true ∧
    (monitor_build (fun _ => envSuccNoArt) []).1 =
      (monitor_build (fun _ => envSucc) []).1 ∧
    (monitor_build (fun _ => envFail) []).1 = Except.ok false ∧
    (monitor_build (fun _ => envFail) []).1 =
      (monitor_build (fun _ => envIP) []).1 := by
  refine ⟨rfl, rfl, rfl, ?_⟩
  have h := monitor_build_timeout (fun _ => envIP) [] (fun _ _ => rfl)
  rw [h]
  rfl

/-- C4 (amended): `monitor_build` reports only a boolean to its caller:
True whenever the build completed with conclusion "success", regardless
of whether artifact retrieval succeeded or failed (its result is
ignored), and False both when the build failed and when the monitor
timed out. The four situations of the claim are distinguished only in
printed output, not in the reported outcome. -/
theorem monitor_outcomes_collapse_to_boolean :
    (∀ (envs : Nat → CycleEnv) (tree : List String) (n : Nat),
      classifyCycle (envs 0) = CycleOutcome.success n →
      exceptOk (download_apk (envs 0).artifactsResp (envs 0).downloadResp tree).2
        = true →
      (monitor_build envs tree).1 = Except.ok true) ∧
    (∀ (envs : Nat → CycleEnv) (tree : List String) (n : Nat),
      classifyCycle (envs 0) = CycleOutcome.failure n →
      exceptOk (get_workflow_logs (envs 0).logsResp) = true →
      (monitor_build envs tree).1 = Except.ok false) ∧
    (∀ (envs : Nat → CycleEnv) (tree : List String),
      (∀ j, j < max_attempts → classifyCycle (envs j) = CycleOutcome.keepPolling) →
      (monitor_build envs tree).1 = Except.ok false) := by
  refine ⟨?_, ?_, ?_⟩
  · intro envs tree n hterm hdl
    rw [monitor_build_success_at envs tree 0 n (by decide)
      (fun j hj => absurd hj (Nat.not_lt_zero j)) hterm]
    cases hres : (download_apk (envs 0).artifactsResp (envs 0).downloadResp tree).2 with
    | error e => rw [hres] at hdl; simp [exceptOk] at hdl
    | ok b => rfl
  · intro envs tree n hterm hlog
    rw [monitor_build_failure_at envs tree 0 n (by decide)
      (fun j hj => absurd hj (Nat.not_lt_zero j)) hterm]
    cases hres : get_workflow_logs (envs 0).logsResp with
    | error e => rw [hres] at hlog; simp [exceptOk] at hlog
    | ok b => rfl
  · intro envs tree hpre
    rw [monitor_build_timeout envs tree hpre]

/-- C4 witness: a success with failed artifact retrieval reports True; a
failed build reports False; a timed-out monitor reports False. -/
theorem monitor_outcomes_collapse_to_boolean_witness :
    (monitor_build (fun _ => envSuccNoArt) []).1 = Except.ok true ∧
    (monitor_build (fun _ => envFail) []).1 = Except.ok false ∧
    (monitor_build (fun _ => envIP) []).1 = Except.ok false :=
  ⟨monitor_outcomes_collapse_to_boolean.1 (fun _ => envSuccNoArt) [] 42 rfl rfl,
    monitor_outcomes_collapse_to_boolean.2.1 (fun _ => envFail) [] 7 rfl (by decide),
    monitor_outcomes_collapse_to_boolean.2.2 (fun _ => envIP) [] (fun _ _ => rfl)⟩

/-- C5 counterexample: a non-2xx response (HTTP 500, even with run data
attached) does not fail with any error — `get_workflow_runs` returns the
empty list, the very value it returns when no runs exist yet, so the two
cases are not distinguishable by the caller. -/
theorem get_workflow_runs_non_2xx_indistinct_cex :
    get_workflow_runs (HttpResp.resp 500 [runSucc]) = Except.ok [] ∧
    get_workflow_runs (HttpResp.resp 500 [runSucc]) =
      get_workflow_runs (HttpResp.resp 200 ([] : List RunObj)) :=
  ⟨rfl, rfl⟩

/-- C5 (amended): `get_workflow_runs` returns the decoded run list on an
HTTP 200 response and the empty list on any other status code — a non-2xx
response raises nothing and is indistinguishable from no runs existing
yet; only a raised connection error propagates to the caller. -/
theorem get_workflow_runs_non_200_empty (code : Nat) (runs : List RunObj) :
    (code ≠ 200 → get_workflow_runs (HttpResp.resp code runs) = Except.ok []) ∧
    get_workflow_runs (HttpResp.resp 200 runs) = Except.ok runs ∧
    get_workflow_runs (HttpResp.raise : HttpResp (List RunObj)) =
      Except.error PyErr.requestError := by
  refine ⟨fun h => ?_, rfl, rfl⟩
  simp [get_workflow_runs, if_neg h]

/-- C5 witness: status 500 with a run attached yields the empty list; a
200 response yields its runs. -/
theorem get_workflow_runs_non_200_empty_witness :
    get_workflow_runs (HttpResp.resp 500 [runIP]) = Except.ok [] ∧
    get_workflow_runs (HttpResp.resp 200 [runIP]) = Except.ok [runIP] ∧
    get_workflow_runs (HttpResp.raise : HttpResp (List RunObj)) =
      Except.error PyErr.requestError :=
  ⟨(get_workflow_runs_non_200_empty 500 [runIP]).1 (by decide),
    (get_workflow_runs_non_200_empty 200 [runIP]).2.1,
    (get_workflow_runs_non_200_empty 200 [runIP]).2.2⟩

/-- C6 counterexample: a corrupt artifact archive inside the success
branch of a poll cycle is not caught at the cycle boundary — the
`BadZipFile` exception escapes `monitor_build` to its caller (the source
loop has no try/except at all). -/
theorem monitor_exception_escapes_cex :
    monitor_build (fun _ => envSuccCorrupt) [] =
      (Except.error PyErr.badZipFile, ⟨1, [42], [], []⟩) := rfl

/-- C6 (amended): only failures signalled through HTTP status codes are
absorbed by the loop — a non-200 poll response yields an empty run list
and the monitor simply keeps polling — while raised exceptions
(connectivity failures, missing JSON keys, corrupt archives) propagate
out of `monitor_build` to its caller, as the download case shows: any
exception raised by `download_apk` becomes the result of
`monitor_build`. -/
theorem monitor_exception_propagation :
    (∀ (envs : Nat → CycleEnv) (fuel attempt : Nat) (tree : List String)
      (tr : Trace) (code : Nat) (runs : List RunObj),
      (envs attempt).runsResp = HttpResp.resp code runs → code ≠ 200 →
      monitorGo envs (fuel + 1) attempt tree tr =
        monitorGo envs fuel (attempt + 1) tree
          ⟨tr.polls + 1, tr.downloads, tr.logFetches, tr.sleeps ++ [poll_interval]⟩) ∧
    (∀ (envs : Nat → CycleEnv) (tree : List String) (n : Nat) (e : PyErr),
      classifyCycle (envs 0) = CycleOutcome.success n →
      (download_apk (envs 0).artifactsResp (envs 0).downloadResp tree).2 =
        Except.error e →
      (monitor_build envs tree).1 = Except.error e) := by
  constructor
  · intro envs fuel attempt tree tr code runs hresp hcode
    apply monitorGo_step_keepPolling
    simp [classifyCycle, get_workflow_runs, hresp, if_neg hcode]
  · intro envs tree n e hterm herr
    rw [monitor_build_success_at envs tree 0 n (by decide)
      (fun j hj => absurd hj (Nat.not_lt_zero j)) hterm]
    rw [herr]

/-- C6 witness: an HTTP 500 poll keeps the monitor polling; a corrupt
artifact archive on a successful run makes `monitor_build` end in the
raised `BadZipFile`. -/
theorem monitor_exception_propagation_witness :
    monitorGo (fun _ => env500) 1 0 [] ⟨0, [], [], []⟩ =
      monitorGo (fun _ => env500) 0 1 [] ⟨1, [], [], [poll_interval]⟩ ∧
    (monitor_build (fun _ => envSuccCorrupt) []).1 = Except.error PyErr.badZipFile :=
  ⟨monitor_exception_propagation.1 (fun _ => env500) 0 0 [] ⟨0, [], [], []⟩
      500 [runSucc] rfl (by decide),
    monitor_exception_propagation.2 (fun _ => envSuccCorrupt) [] 42
      PyErr.badZipFile rfl rfl⟩

/-- C8 counterexample: a run whose JSON object carries no `conclusion`
key at all — which the data model prescribes for runs with status other
than "completed" — does not leave the monitor polling: the unconditional
subscript `latest_run['conclusion']` raises `KeyError`, which escapes
`monitor_build`. -/
theorem monitor_missing_conclusion_raises_cex :
    monitor_build (fun _ => envNoConcl) [] =
      (Except.error (PyErr.keyError "conclusion"), ⟨1, [], [], []⟩) := rfl

/-- C8 (amended): for a poll cycle whose first-listed run carries its
`id`, `status` and `conclusion` keys (the `conclusion` value may be
`null`) and whose status is not "completed", the monitor remains in
Polling without error: it just sleeps and moves to the next attempt. The
code reads all three keys before branching on the status, so the
no-`conclusion`-key case of the claim raises `KeyError` instead. -/
theorem monitor_noncompleted_run_keeps_polling (envs : Nat → CycleEnv)
    (fuel attempt : Nat) (tree : List String) (tr : Trace)
    (r : RunObj) (rest : List RunObj) (s : String) (c : Option String) (m : Nat)
    (hruns : get_workflow_runs (envs attempt).runsResp = Except.ok (r :: rest))
    (hs : r.status = some s) (hc : r.conclusion = some c) (hid : r.id = some m)
    (hnc : s ≠ "completed") :
    monitorGo envs (fuel + 1) attempt tree tr =
      monitorGo envs fuel (attempt + 1) tree
        ⟨tr.polls + 1, tr.downloads, tr.logFetches, tr.sleeps ++ [poll_interval]⟩ := by
  apply monitorGo_step_keepPolling
  simp [classifyCycle, hruns, hs, hc, hid, dictGet, if_neg hnc]

/-- C8 witness: an in-progress run with `conclusion: null` keeps the
monitor polling for another cycle. -/
theorem monitor_noncompleted_run_keeps_polling_witness :
    monitorGo (fun _ => envIP) 1 0 [] ⟨0, [], [], []⟩ =
      monitorGo (fun _ => envIP) 0 1 [] ⟨1, [], [], [poll_interval]⟩ :=
  monitor_noncompleted_run_keeps_polling (fun _ => envIP) 0 0 [] ⟨0, [], [], []⟩
    runIP [] "in_progress" none 7 rfl rfl rfl rfl (by decide)

/-- C9 counterexample: extraction is not all-or-nothing. An archive whose
first entry is intact and whose second is corrupt leaves the first entry
under the destination ("x/a.txt" is now in the tree) while raising a
`zlib.error` exception that propagates to the caller instead of being
reported as an ArtifactRetrievalFailed outcome. -/
theorem extraction_partial_files_cex :
    download_apk (HttpResp.resp 200 [artOK])
        (HttpResp.resp 200 (Blob.zip [⟨"x/a.txt", true⟩, ⟨"b.bin", false⟩])) [] =
      (["x/a.txt"], Except.error PyErr.zlibError) := rfl

/-- C9 (amended): the code extracts directly into the destination with no
staging step. When the payload fails to open as a zip at all, a
`BadZipFile` exception is raised with the destination tree unchanged;
but when corruption is met mid-extraction, the entries before the
corrupt one are already in place when the exception is raised. In both
cases the exception propagates instead of being reported as an
ArtifactRetrievalFailed outcome. -/
theorem download_apk_corrupt_behavior :
    (∀ (a : ArtifactObj) (u : String) (tree : List String),
      a.name = some "app-debug" → a.archive_download_url = some u →
      download_apk (HttpResp.resp 200 [a]) (HttpResp.resp 200 Blob.notZip) tree =
        (tree, Except.error PyErr.badZipFile)) ∧
    (∀ (good : List ZipEntry) (bad : ZipEntry) (rest : List ZipEntry)
      (tree : List String),
      (∀ e ∈ good, e.intact = true) → bad.intact = false →
      extractall (good ++ bad :: rest) tree =
        (tree ++ good.map ZipEntry.name, some PyErr.zlibError)) := by
  constructor
  · intro a u tree hname hurl
    simp [download_apk, find_apk_artifact, dictGet, hname, hurl]
  · intro good
    induction good with
    | nil =>
      intro bad rest tree _ hbad
      simp [extractall, hbad]
    | cons g gs ih =>
      intro bad rest tree h hbad
      have hg : g.intact = true := h g (by simp)
      rw [List.cons_append, extractall, if_pos hg,
        ih bad rest (tree ++ [g.name]) (fun x hx => h x (by simp [hx])) hbad]
      simp

/-- C9 witness: a non-zip payload leaves the starting tree unchanged; a
corrupt second entry leaves the first entry extracted. -/
theorem download_apk_corrupt_behavior_witness :
    download_apk (HttpResp.resp 200 [artOK]) (HttpResp.resp 200 Blob.notZip)
        ["pre.txt"] = (["pre.txt"], Except.error PyErr.badZipFile) ∧
    extractall [⟨"a.txt", true⟩, ⟨"b.bin", false⟩] [] =
      (["a.txt"], some PyErr.zlibError) :=
  ⟨download_apk_corrupt_behavior.1 artOK "u" ["pre.txt"] rfl rfl,
    download_apk_corrupt_behavior.2 [⟨"a.txt", true⟩] ⟨"b.bin", false⟩ [] []
      (by decide) rfl⟩

/-- C10: after the artifact archive extracts successfully into the
current directory, `download_apk` walks the whole working tree —
pre-existing files included — and returns True exactly when some file
name ends in ".apk", False when extraction succeeded but no such file
exists anywhere in the tree. -/
theorem download_apk_reports_apk_presence (arts : List ArtifactObj)
    (a : ArtifactObj) (u : String) (entries : List ZipEntry) (tree : List String)
    (hfind : find_apk_artifact arts = Except.ok (some a))
    (hurl : a.archive_download_url = some u)
    (hintact : ∀ e ∈ entries, e.intact = true) :
    download_apk (HttpResp.resp 200 arts) (HttpResp.resp 200 (Blob.zip entries))
        tree =
      (tree ++ entries.map ZipEntry.name,
        Except.ok ((tree ++ entries.map ZipEntry.name).any
          (fun f => endswith f ".apk"))) ∧
    ((download_apk (HttpResp.resp 200 arts) (HttpResp.resp 200 (Blob.zip entries))
        tree).2 = Except.ok true ↔
      ∃ f ∈ tree ++ entries.map ZipEntry.name, endswith f ".apk" = true) := by
  have hmain : download_apk (HttpResp.resp 200 arts)
      (HttpResp.resp 200 (Blob.zip entries)) tree =
      (tree ++ entries.map ZipEntry.name,
        Except.ok ((tree ++ entries.map ZipEntry.name).any
          (fun f => endswith f ".apk"))) := by
    simp [download_apk, hfind, hurl, dictGet, extractall_intact entries tree hintact]
  refine ⟨hmain, ?_⟩
  rw [hmain]
  simp only [Except.ok.injEq]
  exact List.any_eq_true

/-- C10 witness: extracting an archive holding "app-debug.apk" over a
tree holding "old.txt" returns True; the ".apk" file can equally be a
pre-existing one — a tree already holding "stale.apk" makes the walk
return True even when the archive contributes no ".apk" entry. -/
theorem download_apk_reports_apk_presence_witness :
    download_apk (HttpResp.resp 200 [artOK])
        (HttpResp.resp 200 (Blob.zip [⟨"app-debug.apk", true⟩])) ["old.txt"] =
      (["old.txt", "app-debug.apk"], Except.ok true) ∧
    download_apk (HttpResp.resp 200 [artOK])
        (HttpResp.resp 200 (Blob.zip [⟨"readme.md", true⟩])) ["stale.apk"] =
      (["stale.apk", "readme.md"], Except.ok true) ∧
    download_apk (HttpResp.resp 200 [artOK])
        (HttpResp.resp 200 (Blob.zip [⟨"readme.md", true⟩])) ["old.txt"] =
      (["old.txt", "readme.md"], Except.ok false) :=
  ⟨(download_apk_reports_apk_presence [artOK] artOK "u" [⟨"app-debug.apk", true⟩]
      ["old.txt"] rfl rfl (by decide)).1,
    (download_apk_reports_apk_presence [artOK] artOK "u" [⟨"readme.md", true⟩]
      ["stale.apk"] rfl rfl (by decide)).1,
    (download_apk_reports_apk_presence [artOK] artOK "u" [⟨"readme.md", true⟩]
      ["old.txt"] rfl rfl (by decide)).1⟩

end ApkBuilder
